import Mathlib

/-
Verification of the sgr-agents repository against its specification.

Shallow embedding conventions:
  * Python strings are modelled as `List Char`; slicing, `startswith`,
    `split` and friends become the corresponding list operations.
  * Python sets of tool classes become `Finset Tool`.
  * Machine behaviour that raises an exception is modelled with `Except`.
  * Character-class predicates (`\s`, `\d`, `\w`, `str.lower`) are modelled
    on the ASCII (and, where the code uses them, Cyrillic) ranges actually
    exercised by the repository's data.
-/

/-! ## Tool classes (sgr_deep_research.core.tools imports in sgr_yandex_agent.py) -/

inductive Tool where
  | ReasoningTool
  | WebSearchTool
  | ExtractPageContentTool
  | ClarificationTool
  | GeneratePlanTool
  | AdaptPlanTool
  | CreateReportTool
  | FinalAnswerTool
deriving DecidableEq, Repr

open Tool

/-- Counters of `ResearchContext` (spec section 3; used by `_prepare_tools`). -/
structure ResearchContext where
  iteration : Nat
  searches_used : Nat
  clarifications_used : Nat
  page_extractions_used : Nat
  plan_generations_used : Nat
  plan_adaptations_used : Nat
  report_creations_used : Nat
deriving DecidableEq, Repr

/-- Budget fields of `ExecutionConfig` read by the agents. -/
structure ExecutionLimits where
  max_iterations : Nat
  max_clarifications : Nat
  max_searches : Nat
deriving DecidableEq, Repr

/-- Python runtime errors that the embedded code can raise. -/
inductive PyExc where
  | typeError
deriving DecidableEq, Repr

/-! ### SGRYandexAgent._prepare_tools (sgr_yandex_agent.py lines 60-125)

The body mutates a Python `set` named `tools` through a sequence of
statements; each statement becomes one function below, applied in source
order. -/

/-- Lines 73-76: drop `ClarificationTool` once the clarification budget is
spent. -/
def clarificationRule (limits : ExecutionLimits) (ctx : ResearchContext)
    (tools : Finset Tool) : Finset Tool :=
  if ctx.clarifications_used ≥ limits.max_clarifications then
    tools \ {ClarificationTool}
  else tools

/-- Lines 77-80: drop `WebSearchTool` once the search budget is spent. -/
def searchBudgetRule (limits : ExecutionLimits) (ctx : ResearchContext)
    (tools : Finset Tool) : Finset Tool :=
  if ctx.searches_used ≥ limits.max_searches then
    tools \ {WebSearchTool}
  else tools

/-- Lines 81-89: before the first plan generation collapse to
`{GeneratePlanTool}` when it is present; afterwards drop it. -/
def planRule (ctx : ResearchContext) (tools : Finset Tool) : Finset Tool :=
  if ctx.plan_generations_used = 0 then
    if GeneratePlanTool ∈ tools then ({GeneratePlanTool} : Finset Tool) else tools
  else tools \ {GeneratePlanTool}

/-- Lines 90-98: when `CreateReportTool` is offered, collapse to
`{FinalAnswerTool}` after a report exists, else withhold `FinalAnswerTool`. -/
def reportRule (ctx : ResearchContext) (tools : Finset Tool) : Finset Tool :=
  if CreateReportTool ∈ tools then
    if ctx.report_creations_used > 0 then ({FinalAnswerTool} : Finset Tool)
    else tools \ {FinalAnswerTool}
  else tools

/-- Lines 99-105: before the first search drop plan adaptation, page
extraction, report creation and the final answer. -/
def noSearchYetRule (ctx : ResearchContext) (tools : Finset Tool) : Finset Tool :=
  if ctx.searches_used = 0 then
    tools \ {AdaptPlanTool, ExtractPageContentTool, CreateReportTool, FinalAnswerTool}
  else tools

/-- Lines 106-109: before the first page extraction drop plan adaptation. -/
def pageZeroRule (ctx : ResearchContext) (tools : Finset Tool) : Finset Tool :=
  if ctx.page_extractions_used = 0 then tools \ {AdaptPlanTool} else tools

/-- Lines 110-114: drop page extraction once extractions reach the search
budget or the number of searches performed. -/
def pageBudgetRule (limits : ExecutionLimits) (ctx : ResearchContext)
    (tools : Finset Tool) : Finset Tool :=
  if ctx.page_extractions_used ≥ limits.max_searches ∨
      ctx.page_extractions_used ≥ ctx.searches_used then
    tools \ {ExtractPageContentTool}
  else tools

/-- Lines 116-119: force extraction of found results before searching again. -/
def forceReadRule (ctx : ResearchContext) (tools : Finset Tool) : Finset Tool :=
  if ctx.page_extractions_used < ctx.searches_used then
    tools \ {WebSearchTool}
  else tools

/-- Lines 121-124: drop plan adaptation when adaptations caught up with
searches. -/
def planAdaptRule (ctx : ResearchContext) (tools : Finset Tool) : Finset Tool :=
  if ctx.plan_adaptations_used ≥ ctx.searches_used then
    tools \ {AdaptPlanTool}
  else tools

/-- Lines 73-125 of `SGRYandexAgent._prepare_tools`: the statements that run
after the iteration-cap block, in source order. -/
def yandexToolsTail (limits : ExecutionLimits) (ctx : ResearchContext)
    (toolkit : Finset Tool) : Finset Tool :=
  planAdaptRule ctx
    (forceReadRule ctx
      (pageBudgetRule limits ctx
        (pageZeroRule ctx
          (noSearchYetRule ctx
            (reportRule ctx
              (planRule ctx
                (searchBudgetRule limits ctx
                  (clarificationRule limits ctx toolkit))))))))

/-- SGRYandexAgent._prepare_tools (sgr_yandex_agent.py lines 60-125).
Lines 63-72: when `iteration >= max_iterations`, both branches execute
`tools += {...}` where `tools` is a Python `set`; `set` does not support
`+=`, so CPython raises `TypeError` before any further rule runs.  That
raise is modelled as `Except.error`. -/
def yandex_prepare_tools (limits : ExecutionLimits) (ctx : ResearchContext)
    (toolkit : Finset Tool) : Except PyExc (Finset Tool) :=
  if ctx.iteration ≥ limits.max_iterations then
    Except.error PyExc.typeError
  else
    Except.ok (yandexToolsTail limits ctx toolkit)

/-- BenchmarkAgent._prepare_tools (benchmark/benchmark_agent.py lines 35-48).
The returned list of function schemas is modelled by the set of tools it is
built from. -/
def benchmark_prepare_tools (limits : ExecutionLimits) (ctx : ResearchContext)
    (toolkit : Finset Tool) : Finset Tool :=
  let tools :=
    if ctx.iteration ≥ limits.max_iterations then
      ({ReasoningTool, FinalAnswerTool} : Finset Tool)
    else toolkit
  if ctx.searches_used ≥ limits.max_searches then tools \ {WebSearchTool}
  else tools

/-- BenchmarkAgent._prepare_tools (benchmark/benchmark_sgr_agent.py lines
35-48); the structured-generation twin of `benchmark_prepare_tools`, with the
NextStep union it builds modelled by the underlying set. -/
def benchmark_sgr_prepare_tools (limits : ExecutionLimits) (ctx : ResearchContext)
    (toolkit : Finset Tool) : Finset Tool :=
  let tools :=
    if ctx.iteration ≥ limits.max_iterations then
      ({ReasoningTool, FinalAnswerTool} : Finset Tool)
    else toolkit
  if ctx.searches_used ≥ limits.max_searches then tools \ {WebSearchTool}
  else tools

/-! ### Helper lemmas about the rules -/

theorem mem_ite_sdiff {x : Tool} {c : Prop} [Decidable c] {t s : Finset Tool}
    (hx : x ∈ t) (hs : x ∉ s) : x ∈ (if c then t \ s else t) := by
  split
  · exact Finset.mem_sdiff.mpr ⟨hx, hs⟩
  · exact hx

theorem not_mem_ite_sdiff {x : Tool} {c : Prop} [Decidable c] {t s : Finset Tool}
    (hx : x ∉ t) : x ∉ (if c then t \ s else t) := by
  split
  · intro hmem
    exact hx (Finset.mem_sdiff.mp hmem).1
  · exact hx

deriving instance DecidableEq for Except

theorem web_not_mem_planRule (ctx : ResearchContext) {t : Finset Tool}
    (h : WebSearchTool ∉ t) : WebSearchTool ∉ planRule ctx t := by
  unfold planRule
  split
  · split
    · decide
    · exact h
  · intro hm
    exact h (Finset.mem_sdiff.mp hm).1

theorem web_not_mem_reportRule (ctx : ResearchContext) {t : Finset Tool}
    (h : WebSearchTool ∉ t) : WebSearchTool ∉ reportRule ctx t := by
  unfold reportRule
  split
  · split
    · decide
    · intro hm
      exact h (Finset.mem_sdiff.mp hm).1
  · exact h

theorem web_not_mem_noSearchYetRule (ctx : ResearchContext) {t : Finset Tool}
    (h : WebSearchTool ∉ t) : WebSearchTool ∉ noSearchYetRule ctx t :=
  not_mem_ite_sdiff h

theorem web_not_mem_pageZeroRule (ctx : ResearchContext) {t : Finset Tool}
    (h : WebSearchTool ∉ t) : WebSearchTool ∉ pageZeroRule ctx t :=
  not_mem_ite_sdiff h

theorem web_not_mem_pageBudgetRule (limits : ExecutionLimits)
    (ctx : ResearchContext) {t : Finset Tool}
    (h : WebSearchTool ∉ t) : WebSearchTool ∉ pageBudgetRule limits ctx t :=
  not_mem_ite_sdiff h

theorem web_not_mem_forceReadRule (ctx : ResearchContext) {t : Finset Tool}
    (h : WebSearchTool ∉ t) : WebSearchTool ∉ forceReadRule ctx t :=
  not_mem_ite_sdiff h

theorem web_not_mem_planAdaptRule (ctx : ResearchContext) {t : Finset Tool}
    (h : WebSearchTool ∉ t) : WebSearchTool ∉ planAdaptRule ctx t :=
  not_mem_ite_sdiff h

theorem reportRule_fixes_plan (ctx : ResearchContext) :
    reportRule ctx {GeneratePlanTool} = {GeneratePlanTool} := by
  unfold reportRule
  rw [if_neg (by decide)]

theorem noSearchYetRule_fixes_plan (ctx : ResearchContext) :
    noSearchYetRule ctx {GeneratePlanTool} = {GeneratePlanTool} := by
  unfold noSearchYetRule
  split
  · decide
  · rfl

theorem pageZeroRule_fixes_plan (ctx : ResearchContext) :
    pageZeroRule ctx {GeneratePlanTool} = {GeneratePlanTool} := by
  unfold pageZeroRule
  split
  · decide
  · rfl

theorem pageBudgetRule_fixes_plan (limits : ExecutionLimits) (ctx : ResearchContext) :
    pageBudgetRule limits ctx {GeneratePlanTool} = {GeneratePlanTool} := by
  unfold pageBudgetRule
  split
  · decide
  · rfl

theorem forceReadRule_fixes_plan (ctx : ResearchContext) :
    forceReadRule ctx {GeneratePlanTool} = {GeneratePlanTool} := by
  unfold forceReadRule
  split
  · decide
  · rfl

theorem planAdaptRule_fixes_plan (ctx : ResearchContext) :
    planAdaptRule ctx {GeneratePlanTool} = {GeneratePlanTool} := by
  unfold planAdaptRule
  split
  · decide
  · rfl

/-- C1: the claim expects `_prepare_tools` at `iteration >= max_iterations`
(here `max_iterations = 5`, `iteration = 5`) to return
`{FinalAnswerTool}` plus `CreateReportTool` when present.  The code instead
executes `tools += {...}` on a Python `set`, which raises `TypeError`, so the
call crashes and returns no tool set at all — with and without
`CreateReportTool` in the toolkit. -/
theorem c1_iteration_cap_type_error :
    yandex_prepare_tools ⟨5, 3, 4⟩ ⟨5, 0, 0, 0, 0, 0, 0⟩
      {ReasoningTool, WebSearchTool, CreateReportTool, FinalAnswerTool} =
      Except.error PyExc.typeError ∧
    yandex_prepare_tools ⟨5, 3, 4⟩ ⟨5, 0, 0, 0, 0, 0, 0⟩
      {ReasoningTool, WebSearchTool, FinalAnswerTool} =
      Except.error PyExc.typeError :=
  ⟨rfl, rfl⟩

/-- C2 counterexample: at `iteration = max_iterations = 5` with
`GeneratePlanTool` in the toolkit and `plan_generations_used = 0`, the claim
demands the result `{GeneratePlanTool}`; the code raises `TypeError` in the
iteration-cap branch instead, so the claim fails for this counter state. -/
theorem c2_counterexample :
    yandex_prepare_tools ⟨5, 3, 4⟩ ⟨5, 0, 0, 0, 0, 0, 0⟩
      {GeneratePlanTool, FinalAnswerTool} ≠
      Except.ok ({GeneratePlanTool} : Finset Tool) := by
  decide

/-- C2 (amended): if `GeneratePlanTool` is in the toolkit,
`plan_generations_used = 0` and `iteration < max_iterations` (the
iteration-cap branch raises `TypeError` otherwise), then `_prepare_tools`
returns exactly `{GeneratePlanTool}`, regardless of all other counters. -/
theorem c2_plan_first_invariant (limits : ExecutionLimits) (ctx : ResearchContext)
    (toolkit : Finset Tool) (hplan : GeneratePlanTool ∈ toolkit)
    (h0 : ctx.plan_generations_used = 0)
    (hit : ctx.iteration < limits.max_iterations) :
    yandex_prepare_tools limits ctx toolkit =
      Except.ok ({GeneratePlanTool} : Finset Tool) := by
  unfold yandex_prepare_tools
  rw [if_neg (by omega)]
  refine congrArg Except.ok ?_
  unfold yandexToolsTail
  have h1 : GeneratePlanTool ∈ clarificationRule limits ctx toolkit := by
    unfold clarificationRule
    exact mem_ite_sdiff hplan (by decide)
  have h2 : GeneratePlanTool ∈
      searchBudgetRule limits ctx (clarificationRule limits ctx toolkit) := by
    unfold searchBudgetRule
    exact mem_ite_sdiff h1 (by decide)
  have h3 : planRule ctx
      (searchBudgetRule limits ctx (clarificationRule limits ctx toolkit)) =
      {GeneratePlanTool} := by
    unfold planRule
    rw [if_pos h0, if_pos h2]
  rw [h3, reportRule_fixes_plan, noSearchYetRule_fixes_plan,
    pageZeroRule_fixes_plan, pageBudgetRule_fixes_plan,
    forceReadRule_fixes_plan, planAdaptRule_fixes_plan]

/-- C2 witness: a fresh context with the plan tool available yields exactly
`{GeneratePlanTool}`. -/
theorem c2_plan_first_invariant_witness :
    yandex_prepare_tools ⟨5, 3, 4⟩ ⟨0, 0, 0, 0, 0, 0, 0⟩
      {ReasoningTool, WebSearchTool, GeneratePlanTool, FinalAnswerTool} =
      Except.ok ({GeneratePlanTool} : Finset Tool) :=
  c2_plan_first_invariant _ _ _ (by decide) rfl (by decide)

/-- C3: once `searches_used >= max_searches`, `WebSearchTool` is absent from
every tool set returned by `_prepare_tools` — for the cloud variant (whenever
the call returns a set at all) and for both benchmark variants — for every
toolkit and every context; no later rule re-adds it. -/
theorem c3_search_budget :
    (∀ (limits : ExecutionLimits) (ctx : ResearchContext) (toolkit s : Finset Tool),
      ctx.searches_used ≥ limits.max_searches →
      yandex_prepare_tools limits ctx toolkit = Except.ok s →
      WebSearchTool ∉ s) ∧
    (∀ (limits : ExecutionLimits) (ctx : ResearchContext) (toolkit : Finset Tool),
      ctx.searches_used ≥ limits.max_searches →
      WebSearchTool ∉ benchmark_prepare_tools limits ctx toolkit) ∧
    (∀ (limits : ExecutionLimits) (ctx : ResearchContext) (toolkit : Finset Tool),
      ctx.searches_used ≥ limits.max_searches →
      WebSearchTool ∉ benchmark_sgr_prepare_tools limits ctx toolkit) := by
  refine ⟨?_, ?_, ?_⟩
  · intro limits ctx toolkit s hs hok
    unfold yandex_prepare_tools at hok
    split at hok
    · exact Except.noConfusion hok
    · injection hok with hok
      subst hok
      unfold yandexToolsTail
      have hw : WebSearchTool ∉
          searchBudgetRule limits ctx (clarificationRule limits ctx toolkit) := by
        unfold searchBudgetRule
        rw [if_pos hs]
        intro hm
        exact absurd (Finset.mem_sdiff.mp hm).2 (by simp)
      exact web_not_mem_planAdaptRule ctx
        (web_not_mem_forceReadRule ctx
          (web_not_mem_pageBudgetRule limits ctx
            (web_not_mem_pageZeroRule ctx
              (web_not_mem_noSearchYetRule ctx
                (web_not_mem_reportRule ctx
                  (web_not_mem_planRule ctx hw))))))
  · intro limits ctx toolkit hs
    simp only [benchmark_prepare_tools]
    rw [if_pos hs]
    simp [Finset.mem_sdiff]
  · intro limits ctx toolkit hs
    simp only [benchmark_sgr_prepare_tools]
    rw [if_pos hs]
    simp [Finset.mem_sdiff]

/-- C3 witness: all three variants at concrete exhausted-search states. -/
theorem c3_search_budget_witness :
    WebSearchTool ∉
      ({ReasoningTool, ExtractPageContentTool, FinalAnswerTool} : Finset Tool) ∧
    WebSearchTool ∉ benchmark_prepare_tools ⟨5, 3, 4⟩ ⟨1, 4, 0, 0, 0, 0, 0⟩
      {ReasoningTool, WebSearchTool, ExtractPageContentTool, FinalAnswerTool} ∧
    WebSearchTool ∉ benchmark_sgr_prepare_tools ⟨5, 3, 4⟩ ⟨1, 4, 0, 0, 0, 0, 0⟩
      {ReasoningTool, WebSearchTool, ExtractPageContentTool, FinalAnswerTool} :=
  ⟨c3_search_budget.1 ⟨5, 3, 4⟩ ⟨1, 4, 0, 0, 1, 0, 0⟩
      {ReasoningTool, WebSearchTool, ExtractPageContentTool, FinalAnswerTool} _
      (by decide) (by decide),
    c3_search_budget.2.1 _ _ _ (by decide),
    c3_search_budget.2.2 _ _ _ (by decide)⟩

/-- C7: a reachable counter state (report already created, plan generated,
no search yet, iteration below the cap) for which the cloud variant's
`_prepare_tools` returns the empty tool set: the report rule collapses the
set to `{FinalAnswerTool}` and the no-search-yet rule removes
`FinalAnswerTool`. -/
theorem c7_empty_toolset_reachable :
    yandex_prepare_tools ⟨5, 3, 4⟩
      { iteration := 1, searches_used := 0, clarifications_used := 0,
        page_extractions_used := 0, plan_generations_used := 1,
        plan_adaptations_used := 0, report_creations_used := 1 }
      {WebSearchTool, ExtractPageContentTool, ClarificationTool,
       GeneratePlanTool, AdaptPlanTool, CreateReportTool, FinalAnswerTool} =
      Except.ok (∅ : Finset Tool) := by
  decide

/-! ## C4: cloud-folder extraction (sgr_yandex_agent.py lines 31-48, 127-137) -/

/-- Fields of `LLMConfig` read by `SGRYandexAgent.__init__` (the class itself
lives in `sgr_deep_research.core.agent_definition`; its field list follows
spec section 3). -/
structure LLMConfig where
  base_url : List Char
  api_key : List Char
  model : List Char
  proxy : Option (List Char)
deriving DecidableEq, Repr

/-- Python `base_url.startswith("gpt://")` for the fixed six-character
literal of `extractCloudFolder`. -/
def hasGptScheme : List Char → Bool
  | 'g' :: 'p' :: 't' :: ':' :: '/' :: '/' :: _ => true
  | _ => false

/-- extractCloudFolder (sgr_yandex_agent.py lines 127-137):
`base_url[len("gpt://"):].split("/", 1)[0]` after the startswith test. -/
def extractCloudFolder (base_url : List Char) : Option (List Char) :=
  if hasGptScheme base_url then
    some ((base_url.drop 6).takeWhile (fun c => c != '/'))
  else none

/-- Line 42 of `SGRYandexAgent.__init__`: the `project` client parameter is
computed from `llm_config.model`, not from `llm_config.base_url`. -/
def yandexClientProject (llm_config : LLMConfig) : Option (List Char) :=
  extractCloudFolder llm_config.model

def c4cfg : LLMConfig :=
  { base_url := "gpt://fold/v1".data, api_key := "key".data,
    model := "yandexgpt".data, proxy := none }

theorem takeWhile_append_stop {p : Char → Bool} (l : List Char)
    (hl : ∀ c ∈ l, p c = true) (x : Char) (r : List Char) (hx : p x = false) :
    (l ++ x :: r).takeWhile p = l := by
  induction l with
  | nil => simp [List.takeWhile_cons, hx]
  | cons a l ih =>
    have ha : p a = true := hl a (List.mem_cons_self a l)
    simp only [List.cons_append, List.takeWhile_cons, ha, if_true]
    rw [ih (fun c hc => hl c (List.mem_cons_of_mem a hc))]

/-- C4 counterexample: a config whose `base_url` is `gpt://fold/v1` (so the
claim demands `project = fold`) but whose `model` lacks the scheme makes the
constructor pass `project = None`: the folder is taken from the model field,
not from the base URL. -/
theorem c4_counterexample :
    c4cfg.base_url = "gpt://fold/v1".data ∧
    extractCloudFolder c4cfg.base_url = some "fold".data ∧
    yandexClientProject c4cfg = none := by
  decide

/-- C4 (amended): the constructor extracts the cloud folder from the
configured `model` field: when `model` has the form `gpt://<folder>/...` the
client is built with `project = <folder>`, and with `project = None` when
`model` does not start with `gpt://`. -/
theorem c4_folder_from_model :
    (∀ (cfg : LLMConfig) (folder rest : List Char),
      cfg.model = "gpt://".data ++ (folder ++ '/' :: rest) →
      (∀ c ∈ folder, c ≠ '/') →
      yandexClientProject cfg = some folder) ∧
    (∀ cfg : LLMConfig, hasGptScheme cfg.model = false →
      yandexClientProject cfg = none) := by
  constructor
  · intro cfg folder rest hm hf
    unfold yandexClientProject extractCloudFolder
    rw [hm]
    have hg : hasGptScheme ("gpt://".data ++ (folder ++ '/' :: rest)) = true := rfl
    rw [if_pos hg]
    refine congrArg some ?_
    show (folder ++ '/' :: rest).takeWhile (fun c => c != '/') = folder
    exact takeWhile_append_stop folder (fun c hc => by simp [hf c hc]) '/' rest
      (by simp)
  · intro cfg h
    unfold yandexClientProject extractCloudFolder
    simp [h]

def c4wcfg : LLMConfig :=
  { base_url := "https://llm.api.cloud.example/v1".data, api_key := "key".data,
    model := "gpt://myfolder/llama/latest".data, proxy := none }

/-- C4 witness: the amended statement at a concrete Yandex-style model URI
and at the scheme-less `c4cfg` model. -/
theorem c4_folder_from_model_witness :
    yandexClientProject c4wcfg = some "myfolder".data ∧
    yandexClientProject c4cfg = none :=
  ⟨c4_folder_from_model.1 c4wcfg "myfolder".data "llama/latest".data
      (by decide) (by decide),
    c4_folder_from_model.2 c4cfg (by decide)⟩

/-! ## C5: cache keys of the two LLM services -/

/-- LLMService._get_model_key (core/services/llm_service.py lines 16-19):
`f"{url}:{model}"`, the key under which `call_llm` caches (lines 60-72). -/
def llm_service_model_key (url model : List Char) : List Char :=
  url ++ ':' :: model

/-- LLMService.get_client (model_choise_agent/services/llm_service.py lines
69-100): `cache_key = base_url`; `api_key` and `proxy` do not enter the key. -/
def model_choice_client_key (base_url api_key : List Char)
    (proxy : Option (List Char)) : List Char :=
  base_url

/-- C5 counterexample: two core-service calls that share a `base_url` but
differ in `model` produce different cache keys, so they do not share one
cache entry as the claim states. -/
theorem c5_counterexample :
    llm_service_model_key "https://api.example/v1".data "m1".data ≠
      llm_service_model_key "https://api.example/v1".data "m2".data := by
  decide

/-- C5 (amended): only the model-choice `LLMService` caches by `base_url`
alone (its key ignores `api_key` and `proxy`); the core `LLMService` keys its
cache by `url:model`, so two configurations sharing a base URL but naming
different models occupy distinct cache entries. -/
theorem c5_cache_keying :
    (∀ (base_url k1 k2 : List Char) (p1 p2 : Option (List Char)),
      model_choice_client_key base_url k1 p1 =
        model_choice_client_key base_url k2 p2) ∧
    (∀ url m m' : List Char,
      llm_service_model_key url m = llm_service_model_key url m' → m = m') := by
  constructor
  · intro base_url k1 k2 p1 p2
    rfl
  · intro url m m' h
    unfold llm_service_model_key at h
    have h2 := List.append_cancel_left h
    exact (List.cons.inj h2).2

/-- C5 witness: the amended statement at concrete keys. -/
theorem c5_cache_keying_witness :
    model_choice_client_key "https://api.example/v1".data "a".data none =
      model_choice_client_key "https://api.example/v1".data "b".data
        (some "http://proxy".data) ∧
    ("gpt-4o".data : List Char) = "gpt-4o".data :=
  ⟨c5_cache_keying.1 "https://api.example/v1".data "a".data "b".data none
      (some "http://proxy".data),
    c5_cache_keying.2 "https://api.example/v1".data "gpt-4o".data
      "gpt-4o".data rfl⟩

/-! ## C10: JIRA summary truncation (sync_todo_to_jira.py lines 142-147) -/

/-- Summary built per TODO item:
`summary = f"{number}: {description[:100]}"`, then `summary += "..."` when
the description exceeds 100 characters. -/
def jira_summary (number description : List Char) : List Char :=
  let summary := number ++ ':' :: ' ' :: description.take 100
  if 100 < description.length then summary ++ "...".data else summary

/-- C10: a description longer than 100 characters yields
`<number>: <first 100 chars>...` — a 103-character tail after the number,
colon and space — while a description of at most 100 characters is kept whole
with no ellipsis. -/
theorem c10_summary_truncation :
    (∀ number description : List Char, 100 < description.length →
      jira_summary number description =
        number ++ ':' :: ' ' :: (description.take 100 ++ "...".data) ∧
      (jira_summary number description).length = number.length + 2 + 103) ∧
    (∀ number description : List Char, description.length ≤ 100 →
      jira_summary number description = number ++ ':' :: ' ' :: description) := by
  constructor
  · intro number description h
    constructor
    · simp only [jira_summary, if_pos h]
      simp
    · simp only [jira_summary, if_pos h]
      simp only [List.length_append, List.length_cons, List.length_take]
      have hmin : min 100 description.length = 100 :=
        Nat.min_eq_left (Nat.le_of_lt h)
      rw [hmin]
      simp only [List.length_nil]
  · intro number description h
    simp only [jira_summary]
    rw [if_neg (by omega), List.take_of_length_le h]

/-- C10 witness: a 150-character description is truncated with an ellipsis; a
10-character one is kept whole. -/
theorem c10_summary_truncation_witness :
    (jira_summary "1.1".data (List.replicate 150 'x') =
        "1.1".data ++ ':' :: ' ' :: ((List.replicate 150 'x').take 100 ++ "...".data) ∧
      (jira_summary "1.1".data (List.replicate 150 'x')).length =
        "1.1".data.length + 2 + 103) ∧
    jira_summary "1.2".data (List.replicate 10 'y') =
      "1.2".data ++ ':' :: ' ' :: List.replicate 10 'y' :=
  ⟨c10_summary_truncation.1 "1.1".data (List.replicate 150 'x')
      (by rw [List.length_replicate]; omega),
    c10_summary_truncation.2 "1.2".data (List.replicate 10 'y')
      (by rw [List.length_replicate]; omega)⟩

/-! ## C8: JiraIntegration.transition_to_status (jira_integration.py lines 232-296) -/

/-- Python `str.lower` restricted to the ASCII and Cyrillic letters the
integration module's status tables use. -/
def pyLowerChar (c : Char) : Char :=
  if 'A' ≤ c ∧ c ≤ 'Z' then Char.ofNat (c.toNat + 32)
  else if 0x410 ≤ c.toNat ∧ c.toNat ≤ 0x42F then Char.ofNat (c.toNat + 32)
  else if c.toNat = 0x401 then Char.ofNat 0x451
  else c

/-- Python `str.upper` on the same character ranges. -/
def pyUpperChar (c : Char) : Char :=
  if 'a' ≤ c ∧ c ≤ 'z' then Char.ofNat (c.toNat - 32)
  else if 0x430 ≤ c.toNat ∧ c.toNat ≤ 0x44F then Char.ofNat (c.toNat - 32)
  else if c.toNat = 0x451 then Char.ofNat 0x401
  else c

def pyLower (s : List Char) : List Char := s.map pyLowerChar

def pyUpper (s : List Char) : List Char := s.map pyUpperChar

/-- One entry of `get_available_transitions` (lines 180-188): transition id,
display name, current status and target status. -/
structure JiraTransition where
  id : Nat
  name : List Char
  fromStatus : List Char
  toStatus : List Char
deriving DecidableEq, Repr

/-- The issue state the method reads: `issue.fields.status.name` and the
tracker's available transitions (the backend is modelled as not failing; on
`JIRAError` every integration method returns a sentinel instead). -/
structure JiraIssue where
  status : List Char
  transitions : List JiraTransition
deriving DecidableEq, Repr

/-- `status_keywords` table (lines 265-270). -/
def status_keywords : List (List Char × List (List Char)) :=
  [("В РАБОТЕ".data,
      ["взять в работу".data, "в работе".data, "в работу".data,
       "начать".data, "start".data, "begin".data, "work".data]),
   ("НА РЕВЬЮ".data,
      ["на ревью".data, "ревью".data, "review".data,
       "на проверку".data, "проверка".data]),
   ("DONE".data,
      ["done".data, "готово".data, "завершено".data, "выполнено".data]),
   ("TO DO".data,
      ["to do".data, "к выполнению".data, "открыт".data])]

/-- Line 273: `status_keywords.get(target_status.upper(), [target_lower])`. -/
def keywordsFor (target_status : List Char) : List (List Char) :=
  match status_keywords.find? (fun kv => kv.1 == pyUpper target_status) with
  | some kv => kv.2
  | none => [pyLower target_status]

/-- Python substring test `needle in hay`. -/
def containsSub (hay needle : List Char) : Bool :=
  if needle.isPrefixOf hay then true
  else
    match hay with
    | [] => false
    | _ :: t => containsSub t needle

/-- transition_to_status (lines 232-296).  The result pairs the returned
boolean with the ids of the transitions executed through
`jira.transition_issue`, so that "issues no transition call" is expressible.
The keyword loop checks each transition's display name and then its target
status before moving to the next transition; that is the same first match as
a single disjunctive scan. -/
def transition_to_status (issue : JiraIssue) (target_status : List Char) :
    Bool × List Nat :=
  let transitions := issue.transitions
  let current_status := issue.status
  if pyLower current_status = pyLower target_status then (true, [])
  else if transitions.isEmpty then (false, [])
  else
    match transitions.find? (fun t => pyLower t.toStatus == pyLower target_status) with
    | some t => (true, [t.id])
    | none =>
      let keywords := keywordsFor target_status
      match transitions.find? (fun t =>
          keywords.any (fun k => containsSub (pyLower t.name) k) ||
          keywords.any (fun k => containsSub (pyLower t.toStatus) k)) with
      | some t => (true, [t.id])
      | none => (false, [])

/-- Executing a transition moves the issue to that transition's target
status (only ever applied to the empty call list in the theorems below). -/
def executeTransitionEffect (issue : JiraIssue) (tid : Nat) : JiraIssue :=
  match issue.transitions.find? (fun t => t.id == tid) with
  | some t => { issue with status := t.toStatus }
  | none => issue

def runCalls (issue : JiraIssue) (ids : List Nat) : JiraIssue :=
  ids.foldl executeTransitionEffect issue

/-- C8: when the issue is already at the target status (case-insensitively),
`transition_to_status` returns `True` and executes no transition; hence a
second consecutive call sees the unchanged issue and again returns `True`
with no transition call. -/
theorem c8_transition_idempotent (issue : JiraIssue) (target_status : List Char)
    (h : pyLower issue.status = pyLower target_status) :
    transition_to_status issue target_status = (true, []) ∧
    transition_to_status
        (runCalls issue (transition_to_status issue target_status).2)
        target_status = (true, []) := by
  have h1 : transition_to_status issue target_status = (true, []) := by
    simp only [transition_to_status]
    rw [if_pos h]
  refine ⟨h1, ?_⟩
  rw [h1]
  exact h1

def c8issue : JiraIssue :=
  { status := "На ревью".data,
    transitions := [⟨31, "Готово".data, "На ревью".data, "Done".data⟩] }

/-- C8 witness: an issue already at the review status. -/
theorem c8_transition_idempotent_witness :
    transition_to_status c8issue "НА РЕВЬЮ".data = (true, []) ∧
    transition_to_status
        (runCalls c8issue (transition_to_status c8issue "НА РЕВЬЮ".data).2)
        "НА РЕВЬЮ".data = (true, []) :=
  c8_transition_idempotent c8issue "НА РЕВЬЮ".data (by decide)

/-! ## C6: TaskAccessTool.__call__ (model_choise_agent/tools/prompt_access_tool.py
lines 89-236)

Exceptions derived from `Exception` are modelled as a raise kind (the two
`except` clauses distinguish `json.JSONDecodeError` from everything else)
together with the exception's `str()` message.  The fallible steps of the
classification path — service lookup, service re-initialization,
instrumental-config loading, the LLM call (including the system-prompt file
read it subsumes) and JSON validation of its result — become outcome fields
of an environment record. -/

inductive PyRaise where
  | jsonDecodeError (msg : List Char)
  | otherError (msg : List Char)
deriving DecidableEq, Repr

def PyRaise.msg : PyRaise → List Char
  | .jsonDecodeError m => m
  | .otherError m => m

inductive PyOutcome (α : Type) where
  | ok (val : α)
  | raised (e : PyRaise)
deriving DecidableEq, Repr

def PyOutcome.isRaised {α : Type} : PyOutcome α → Bool
  | .ok _ => false
  | .raised _ => true

/-- `PromptAnalysisResult` (model_choise_agent/services/llm_service.py lines
54-59). -/
structure PromptAnalysisResult where
  reasoning : List Char
  model_kind : List Char
  result_kind : List Char
deriving DecidableEq, Repr

/-- The JSON object `TaskAccessTool.__call__` serializes with `json.dumps`
(an `error` key is present only in the failure payloads). -/
structure TaskAccessPayload where
  error : Option (List Char)
  reasoning : List Char
  model_kind : List Char
  result_kind : List Char
deriving DecidableEq, Repr

structure TaskAccessEnv where
  service_missing : Bool
  import_ok : Bool
  import_error : Option (List Char)
  init_outcome : PyOutcome Unit
  config_outcome : PyOutcome Unit
  call_outcome : PyOutcome (List Char)
  validate_outcome : List Char → PyOutcome PromptAnalysisResult

/-- Every failure payload fixes `model_kind = "heavy"` and
`result_kind = "strict"` (the commented default fallbacks). -/
def fallbackPayload (e r : List Char) : TaskAccessPayload :=
  { error := some e, reasoning := r,
    model_kind := "heavy".data, result_kind := "strict".data }

/-- Line 196 and the handlers of lines 213-236, as a function of the
validation outcome: `model_validate_json` either yields the success payload
of lines 203-211 or raises into one of the two handlers. -/
def validateStep (o : PyOutcome PromptAnalysisResult) : TaskAccessPayload :=
  match o with
  | .raised (.jsonDecodeError m) =>
      fallbackPayload ("Invalid JSON response from instrumental model: ".data ++ m)
        ("JSON parsing failed: ".data ++ m)
  | .raised (.otherError m) =>
      fallbackPayload m ("Analysis failed: ".data ++ m)
  | .ok r =>
      { error := none, reasoning := r.reasoning,
        model_kind := r.model_kind, result_kind := r.result_kind }

/-- Lines 129-236: the `try` body after the service checks, with its
`except json.JSONDecodeError` and `except Exception` handlers. -/
def taskAccessMain (env : TaskAccessEnv) : TaskAccessPayload :=
  match env.config_outcome with
  | .raised e =>
      fallbackPayload ("Failed to load instrumental model config: ".data ++ e.msg)
        "Configuration loading failed".data
  | .ok _ =>
    match env.call_outcome with
    | .raised (.jsonDecodeError m) =>
        fallbackPayload ("Invalid JSON response from instrumental model: ".data ++ m)
          ("JSON parsing failed: ".data ++ m)
    | .raised (.otherError m) =>
        fallbackPayload m ("Analysis failed: ".data ++ m)
    | .ok s => validateStep (env.validate_outcome s)

/-- TaskAccessTool.__call__ (lines 89-236): the service checks of lines
98-127 followed by `taskAccessMain`. -/
def TaskAccessTool_call (env : TaskAccessEnv) : TaskAccessPayload :=
  if env.service_missing then
    if env.import_ok = false then
      fallbackPayload
        ("LLMService is not available: ".data ++
          (match env.import_error with
           | some m => m
           | none => "Unknown error".data))
        "Service not available".data
    else
      match env.init_outcome with
      | .raised e =>
          fallbackPayload ("Failed to initialize LLMService: ".data ++ e.msg)
            "Service initialization failed".data
      | .ok _ => taskAccessMain env
  else taskAccessMain env

/-- Some step of the classification path raises (or the service is simply
unavailable). -/
def classificationFails (env : TaskAccessEnv) : Prop :=
  (env.service_missing = true ∧ env.import_ok = false) ∨
  (env.service_missing = true ∧ env.init_outcome.isRaised = true) ∨
  env.config_outcome.isRaised = true ∨
  env.call_outcome.isRaised = true ∨
  (∃ s, env.call_outcome = PyOutcome.ok s ∧
    (env.validate_outcome s).isRaised = true)

/-- Every exception message recorded in the environment is non-empty. -/
def envRaiseMsgsNonempty (env : TaskAccessEnv) : Prop :=
  (∀ e, env.init_outcome = PyOutcome.raised e → e.msg ≠ []) ∧
  (∀ e, env.config_outcome = PyOutcome.raised e → e.msg ≠ []) ∧
  (∀ e, env.call_outcome = PyOutcome.raised e → e.msg ≠ []) ∧
  (∀ s e, env.validate_outcome s = PyOutcome.raised e → e.msg ≠ [])

def c6env : TaskAccessEnv :=
  { service_missing := false, import_ok := true, import_error := none,
    init_outcome := PyOutcome.ok (), config_outcome := PyOutcome.ok (),
    call_outcome := PyOutcome.raised (PyRaise.otherError []),
    validate_outcome := fun _ =>
      PyOutcome.ok ⟨"r".data, "light".data, "strict".data⟩ }

/-- C6 counterexample: an `Exception` whose `str()` is empty (such as
`ValueError()`) raised by the LLM call lands in the final generic handler,
whose payload sets `error` to the bare message — here the empty string — so
the claim's "non-empty error field" fails while the call still raises. -/
theorem c6_counterexample :
    c6env.call_outcome.isRaised = true ∧
    TaskAccessTool_call c6env =
      { error := some [], reasoning := "Analysis failed: ".data,
        model_kind := "heavy".data, result_kind := "strict".data } := by
  constructor
  · rfl
  · rfl

theorem cons_append_ne_nil (c : Char) (p x : List Char) :
    (c :: p) ++ x ≠ [] := by
  simp

/-- C6 (amended): whenever a step of the classification path fails,
`TaskAccessTool.__call__` returns (rather than raises) a payload with
`model_kind = "heavy"`, `result_kind = "strict"` and an `error` field
present; the `error` field is moreover non-empty whenever every raised
exception's message is non-empty (the service, config and JSON-decode
handlers prepend a fixed prefix, while the generic handler returns the bare
message). -/
theorem c6_fallback (env : TaskAccessEnv) (hfail : classificationFails env) :
    (TaskAccessTool_call env).model_kind = "heavy".data ∧
    (TaskAccessTool_call env).result_kind = "strict".data ∧
    (TaskAccessTool_call env).error.isSome = true ∧
    (envRaiseMsgsNonempty env →
      ∀ m, (TaskAccessTool_call env).error = some m → m ≠ []) := by
  obtain ⟨sm, io, ie, ini, cfg, call, val⟩ := env
  simp only [classificationFails] at hfail
  simp only [envRaiseMsgsNonempty]
  cases sm with
  | true =>
    cases io with
    | false =>
      cases ie with
      | some m2 =>
        refine ⟨rfl, rfl, rfl, ?_⟩
        intro hne m hm
        rw [show (TaskAccessTool_call
            ⟨true, false, some m2, ini, cfg, call, val⟩).error =
            some ("LLMService is not available: ".data ++ m2) from rfl,
          Option.some_inj] at hm
        subst hm
        exact cons_append_ne_nil _ _ _
      | none =>
        refine ⟨rfl, rfl, rfl, ?_⟩
        intro hne m hm
        rw [show (TaskAccessTool_call
            ⟨true, false, none, ini, cfg, call, val⟩).error =
            some ("LLMService is not available: ".data ++ "Unknown error".data)
            from rfl, Option.some_inj] at hm
        subst hm
        exact cons_append_ne_nil _ _ _
    | true =>
      cases ini with
      | raised e =>
        refine ⟨rfl, rfl, rfl, ?_⟩
        intro hne m hm
        rw [show (TaskAccessTool_call
            ⟨true, true, ie, PyOutcome.raised e, cfg, call, val⟩).error =
            some ("Failed to initialize LLMService: ".data ++ e.msg) from rfl,
          Option.some_inj] at hm
        subst hm
        exact cons_append_ne_nil _ _ _
      | ok u =>
        cases u
        cases cfg with
        | raised e =>
          refine ⟨rfl, rfl, rfl, ?_⟩
          intro hne m hm
          rw [show (TaskAccessTool_call ⟨true, true, ie, PyOutcome.ok (),
              PyOutcome.raised e, call, val⟩).error =
              some ("Failed to load instrumental model config: ".data ++ e.msg)
              from rfl, Option.some_inj] at hm
          subst hm
          exact cons_append_ne_nil _ _ _
        | ok u2 =>
          cases u2
          cases call with
          | raised e =>
            cases e with
            | jsonDecodeError m0 =>
              refine ⟨rfl, rfl, rfl, ?_⟩
              intro hne m hm
              rw [show (TaskAccessTool_call ⟨true, true, ie, PyOutcome.ok (),
                  PyOutcome.ok (), PyOutcome.raised (PyRaise.jsonDecodeError m0),
                  val⟩).error =
                  some ("Invalid JSON response from instrumental model: ".data ++ m0)
                  from rfl, Option.some_inj] at hm
              subst hm
              exact cons_append_ne_nil _ _ _
            | otherError m0 =>
              refine ⟨rfl, rfl, rfl, ?_⟩
              intro hne m hm
              rw [show (TaskAccessTool_call ⟨true, true, ie, PyOutcome.ok (),
                  PyOutcome.ok (), PyOutcome.raised (PyRaise.otherError m0),
                  val⟩).error = some m0 from rfl, Option.some_inj] at hm
              subst hm
              exact hne.2.2.1 (PyRaise.otherError m0) rfl
          | ok s =>
            have hres : TaskAccessTool_call ⟨true, true, ie, PyOutcome.ok (),
                PyOutcome.ok (), PyOutcome.ok s, val⟩ = validateStep (val s) := rfl
            rw [hres]
            cases hval : val s with
            | raised e =>
              cases e with
              | jsonDecodeError m0 =>
                refine ⟨rfl, rfl, rfl, ?_⟩
                intro hne m hm
                rw [show (validateStep
                    (PyOutcome.raised (PyRaise.jsonDecodeError m0))).error =
                    some ("Invalid JSON response from instrumental model: ".data ++ m0)
                    from rfl, Option.some_inj] at hm
                subst hm
                exact cons_append_ne_nil _ _ _
              | otherError m0 =>
                refine ⟨rfl, rfl, rfl, ?_⟩
                intro hne m hm
                rw [show (validateStep
                    (PyOutcome.raised (PyRaise.otherError m0))).error =
                    some m0 from rfl, Option.some_inj] at hm
                subst hm
                exact hne.2.2.2 s (PyRaise.otherError m0) hval
            | ok r =>
              exfalso
              rcases hfail with h | h | h | h | ⟨s2, hs2, hv2⟩
              · exact absurd h.2 (by simp)
              · exact absurd h.2 (by simp [PyOutcome.isRaised])
              · exact absurd h (by simp [PyOutcome.isRaised])
              · exact absurd h (by simp [PyOutcome.isRaised])
              · rw [PyOutcome.ok.injEq] at hs2
                subst hs2
                rw [hval] at hv2
                exact absurd hv2 (by simp [PyOutcome.isRaised])
  | false =>
    cases cfg with
    | raised e =>
      refine ⟨rfl, rfl, rfl, ?_⟩
      intro hne m hm
      rw [show (TaskAccessTool_call
          ⟨false, io, ie, ini, PyOutcome.raised e, call, val⟩).error =
          some ("Failed to load instrumental model config: ".data ++ e.msg)
          from rfl, Option.some_inj] at hm
      subst hm
      exact cons_append_ne_nil _ _ _
    | ok u2 =>
      cases u2
      cases call with
      | raised e =>
        cases e with
        | jsonDecodeError m0 =>
          refine ⟨rfl, rfl, rfl, ?_⟩
          intro hne m hm
          rw [show (TaskAccessTool_call ⟨false, io, ie, ini, PyOutcome.ok (),
              PyOutcome.raised (PyRaise.jsonDecodeError m0), val⟩).error =
              some ("Invalid JSON response from instrumental model: ".data ++ m0)
              from rfl, Option.some_inj] at hm
          subst hm
          exact cons_append_ne_nil _ _ _
        | otherError m0 =>
          refine ⟨rfl, rfl, rfl, ?_⟩
          intro hne m hm
          rw [show (TaskAccessTool_call ⟨false, io, ie, ini, PyOutcome.ok (),
              PyOutcome.raised (PyRaise.otherError m0), val⟩).error =
              some m0 from rfl, Option.some_inj] at hm
          subst hm
          exact hne.2.2.1 (PyRaise.otherError m0) rfl
      | ok s =>
        have hres : TaskAccessTool_call ⟨false, io, ie, ini, PyOutcome.ok (),
            PyOutcome.ok s, val⟩ = validateStep (val s) := rfl
        rw [hres]
        cases hval : val s with
        | raised e =>
          cases e with
          | jsonDecodeError m0 =>
            refine ⟨rfl, rfl, rfl, ?_⟩
            intro hne m hm
            rw [show (validateStep
                (PyOutcome.raised (PyRaise.jsonDecodeError m0))).error =
                some ("Invalid JSON response from instrumental model: ".data ++ m0)
                from rfl, Option.some_inj] at hm
            subst hm
            exact cons_append_ne_nil _ _ _
          | otherError m0 =>
            refine ⟨rfl, rfl, rfl, ?_⟩
            intro hne m hm
            rw [show (validateStep
                (PyOutcome.raised (PyRaise.otherError m0))).error =
                some m0 from rfl, Option.some_inj] at hm
            subst hm
            exact hne.2.2.2 s (PyRaise.otherError m0) hval
        | ok r =>
          exfalso
          rcases hfail with h | h | h | h | ⟨s2, hs2, hv2⟩
          · exact absurd h.1 (by simp)
          · exact absurd h.1 (by simp)
          · exact absurd h (by simp [PyOutcome.isRaised])
          · exact absurd h (by simp [PyOutcome.isRaised])
          · rw [PyOutcome.ok.injEq] at hs2
            subst hs2
            rw [hval] at hv2
            exact absurd hv2 (by simp [PyOutcome.isRaised])


def c6wenv : TaskAccessEnv :=
  { service_missing := false, import_ok := true, import_error := none,
    init_outcome := PyOutcome.ok (),
    config_outcome := PyOutcome.raised (PyRaise.otherError "no config".data),
    call_outcome := PyOutcome.ok "x".data,
    validate_outcome := fun _ =>
      PyOutcome.ok ⟨"r".data, "light".data, "creative".data⟩ }

/-- C6 witness: a failing instrumental-config load. -/
theorem c6_fallback_witness :
    (TaskAccessTool_call c6wenv).model_kind = "heavy".data ∧
    (TaskAccessTool_call c6wenv).result_kind = "strict".data ∧
    (TaskAccessTool_call c6wenv).error.isSome = true ∧
    (envRaiseMsgsNonempty c6wenv →
      ∀ m, (TaskAccessTool_call c6wenv).error = some m → m ≠ []) :=
  c6_fallback c6wenv (Or.inr (Or.inr (Or.inl rfl)))

/-! ## C9: parse_todo_file (official-agent/scripts/sync_todo_to_jira.py
lines 56-108)

The item regex `^\s*-\s+(\d+(?:\.\d+)*)\s+\[(\w+)\]\s+(.+)$` and the section
regex `^(\d+)\.\s+(.+)$` are compiled by hand.  Adjacent regex pieces have
disjoint character classes except the final `\s+(.+)$`, where `.` also
matches whitespace: there the greedy `\s+` backs off one character when the
remainder is all whitespace, which the `min`/`length` arithmetic below
reproduces.  Character classes are the ASCII portions of Python's `\s`,
`\d` and `\w` (the status tokens of the TODO format are ASCII). -/

def pyIsSpace (c : Char) : Bool :=
  (c == ' ') || (c == '\t') || (c == '\n') || (c == '\r') ||
    (c == '\x0b') || (c == '\x0c')

def pyIsDigit (c : Char) : Bool := c.isDigit

def pyIsWord (c : Char) : Bool := c.isAlphanum || c == '_'

/-- Python `str.strip()`. -/
def pyStrip (s : List Char) : List Char :=
  ((s.dropWhile pyIsSpace).reverse.dropWhile pyIsSpace).reverse

/-- The `(?:\.\d+)*` loop: greedily consume dot-plus-digits groups, returning
the consumed characters and the rest.  The fuel argument only bounds the
recursion; every iteration consumes at least the dot, so `s.length` fuel
(as supplied by `dottedTail`) never runs out. -/
def dottedTailAux : Nat → List Char → List Char × List Char
  | 0, s => ([], s)
  | n + 1, s =>
    match s with
    | c :: r =>
      if c = '.' then
        if (r.takeWhile pyIsDigit).isEmpty then ([], c :: r)
        else
          ('.' :: (r.takeWhile pyIsDigit ++
              (dottedTailAux n (r.dropWhile pyIsDigit)).1),
            (dottedTailAux n (r.dropWhile pyIsDigit)).2)
      else ([], c :: r)
    | [] => ([], [])

def dottedTail (s : List Char) : List Char × List Char :=
  dottedTailAux s.length s

/-- The `\[(\w+)\]\s+(.+)$` tail of the item regex, applied after the
opening bracket: returns the status word and the raw description. -/
def parseAfterBracket (r6 : List Char) : Option (List Char × List Char) :=
  if (r6.takeWhile pyIsWord).isEmpty then none
  else
    match r6.dropWhile pyIsWord with
    | ']' :: r8 =>
      if (r8.takeWhile pyIsSpace).isEmpty then none
      else if r8.length < 2 then none
      else some (r6.takeWhile pyIsWord,
        r8.drop (min (r8.takeWhile pyIsSpace).length (r8.length - 1)))
    | _ => none

/-- `re.match(r"^\s*-\s+(\d+(?:\.\d+)*)\s+\[(\w+)\]\s+(.+)$", line)` (line
74): yields `(dotted number, status, raw description)`. -/
def parseItemLine (line : List Char) :
    Option (List Char × List Char × List Char) :=
  match line.dropWhile pyIsSpace with
  | c :: r1 =>
    if c = '-' then
      if (r1.takeWhile pyIsSpace).isEmpty then none
      else if ((r1.dropWhile pyIsSpace).takeWhile pyIsDigit).isEmpty then none
      else if (((dottedTail ((r1.dropWhile pyIsSpace).dropWhile pyIsDigit)).2).takeWhile
          pyIsSpace).isEmpty then none
      else
        match ((dottedTail ((r1.dropWhile pyIsSpace).dropWhile pyIsDigit)).2).dropWhile
            pyIsSpace with
        | b :: r6 =>
          if b = '[' then
            match parseAfterBracket r6 with
            | some p =>
              some ((r1.dropWhile pyIsSpace).takeWhile pyIsDigit ++
                  (dottedTail ((r1.dropWhile pyIsSpace).dropWhile pyIsDigit)).1,
                p.1, p.2)
            | none => none
          else none
        | [] => none
    else none
  | [] => none

/-- `re.match(r"^(\d+)\.\s+(.+)$", line.strip())` (line 78): yields
`(section number, raw title)`. -/
def parseSectionLine (line : List Char) : Option (List Char × List Char) :=
  if ((pyStrip line).takeWhile pyIsDigit).isEmpty then none
  else
    match (pyStrip line).dropWhile pyIsDigit with
    | c :: r =>
      if c = '.' then
        if (r.takeWhile pyIsSpace).isEmpty then none
        else if r.length < 2 then none
        else some ((pyStrip line).takeWhile pyIsDigit,
          r.drop (min (r.takeWhile pyIsSpace).length (r.length - 1)))
      else none
    | [] => none

/-- One parsed TODO item (the dict built at lines 97-106; `section` and
`section_title` are renamed because `section` is reserved in Lean). -/
structure TodoItem where
  number : List Char
  status : List Char
  description : List Char
  level : Nat
  sectionNumber : List Char
  sectionTitle : List Char
deriving DecidableEq, Repr

/-- The per-line loop of `parse_todo_file` (lines 76-106): section lines
update the current section and produce nothing; item lines append an item
with stripped description, `level = len(number.split("."))` and the current
(or number-derived) section fields. -/
def parseTodoLines :
    Option (List Char × List Char) → List (List Char) → List TodoItem
  | _, [] => []
  | cur, line :: rest =>
    match parseSectionLine line with
    | some sec => parseTodoLines (some (sec.1, pyStrip sec.2)) rest
    | none =>
      match parseItemLine line with
      | some item =>
        { number := item.1, status := item.2.1,
          description := pyStrip item.2.2,
          level := item.1.count '.' + 1,
          sectionNumber :=
            match cur with
            | some c => c.1
            | none => item.1.takeWhile (fun ch => ch != '.'),
          sectionTitle :=
            match cur with
            | some c => c.2
            | none => [] } :: parseTodoLines cur rest
      | none => parseTodoLines cur rest

/-- parse_todo_file (lines 56-108): split the file content on newlines and
run the line loop with no current section. -/
def parse_todo_file (content : List Char) : List TodoItem :=
  parseTodoLines none (content.splitOn '\n')

/-! ### A line with no bracketed word token parses to no item -/

/-- The line contains a `\[\w+\]` occurrence somewhere. -/
def hasBracketedTokenB : List Char → Bool
  | [] => false
  | c :: rest =>
    ((c == '[') && !(rest.takeWhile pyIsWord).isEmpty &&
      (match rest.dropWhile pyIsWord with
       | ']' :: _ => true
       | _ => false)) || hasBracketedTokenB rest

theorem hasBracketedTokenB_cons (c : Char) (rest : List Char)
    (h : hasBracketedTokenB rest = true) :
    hasBracketedTokenB (c :: rest) = true := by
  simp only [hasBracketedTokenB, h, Bool.or_true]

theorem hasBracketedTokenB_of_sfx {a b : List Char} (hs : List.IsSuffix a b)
    (h : hasBracketedTokenB a = true) : hasBracketedTokenB b = true := by
  obtain ⟨p, hp⟩ := hs
  subst hp
  induction p with
  | nil => simpa using h
  | cons c p ih => exact hasBracketedTokenB_cons c _ ih

theorem dropWhile_sfx (p : Char → Bool) (l : List Char) :
    List.IsSuffix (l.dropWhile p) l :=
  ⟨l.takeWhile p, List.takeWhile_append_dropWhile p l⟩

theorem tail_sfx (c : Char) (l : List Char) : List.IsSuffix l (c :: l) :=
  ⟨[c], rfl⟩

theorem dottedTailAux_sfx (n : Nat) :
    ∀ s : List Char, List.IsSuffix (dottedTailAux n s).2 s := by
  induction n with
  | zero => intro s; exact List.suffix_rfl
  | succ n ih =>
    intro s
    cases s with
    | nil => exact List.suffix_rfl
    | cons c r =>
      simp only [dottedTailAux]
      split
      · split
        · exact List.suffix_rfl
        · exact ((ih _).trans (dropWhile_sfx _ _)).trans (tail_sfx c r)
      · exact List.suffix_rfl

theorem dottedTail_sfx (s : List Char) : List.IsSuffix (dottedTail s).2 s :=
  dottedTailAux_sfx s.length s

theorem parseAfterBracket_some {r6 : List Char} {v : List Char × List Char}
    (h : parseAfterBracket r6 = some v) :
    (r6.takeWhile pyIsWord).isEmpty = false ∧
    ∃ r8, r6.dropWhile pyIsWord = ']' :: r8 := by
  unfold parseAfterBracket at h
  split at h
  · exact Option.noConfusion h
  · rename_i hne
    split at h
    · rename_i r8 heq
      exact ⟨Bool.eq_false_iff.mpr hne, r8, heq⟩
    · exact Option.noConfusion h

theorem parseItemLine_some_bracket {line : List Char}
    {v : List Char × List Char × List Char}
    (h : parseItemLine line = some v) : hasBracketedTokenB line = true := by
  unfold parseItemLine at h
  split at h
  · rename_i c r1 heq1
    split at h
    · rename_i hc
      split at h
      · exact Option.noConfusion h
      · split at h
        · exact Option.noConfusion h
        · split at h
          · exact Option.noConfusion h
          · split at h
            · rename_i b r6 heq2
              split at h
              · rename_i hb
                split at h
                · rename_i p heq3
                  obtain ⟨hw, r8, hr8⟩ := parseAfterBracket_some heq3
                  subst hb
                  have hbr : hasBracketedTokenB ('[' :: r6) = true := by
                    simp [hasBracketedTokenB, hw, hr8]
                  have s1 : List.IsSuffix ('[' :: r6)
                      ((dottedTail ((r1.dropWhile pyIsSpace).dropWhile
                        pyIsDigit)).2) := by
                    rw [← heq2]
                    exact dropWhile_sfx _ _
                  have s2 := dottedTail_sfx
                    ((r1.dropWhile pyIsSpace).dropWhile pyIsDigit)
                  have s3 := dropWhile_sfx pyIsDigit (r1.dropWhile pyIsSpace)
                  have s4 := dropWhile_sfx pyIsSpace r1
                  have s5 := tail_sfx c r1
                  have s6 : List.IsSuffix (c :: r1) line := by
                    rw [← heq1]
                    exact dropWhile_sfx _ _
                  exact hasBracketedTokenB_of_sfx
                    (((((s1.trans s2).trans s3).trans s4).trans s5).trans s6) hbr
                · exact Option.noConfusion h
              · exact Option.noConfusion h
            · exact Option.noConfusion h
    · exact Option.noConfusion h
  · exact Option.noConfusion h

/-- C9: the line `- 1.1 [DONE] Configure database schema` parses to exactly
one item with number `1.1`, status `DONE`, description
`Configure database schema` and nesting level 2; and every line carrying no
bracketed `[word]` token parses to no item. -/
theorem c9_todo_parsing :
    parse_todo_file "- 1.1 [DONE] Configure database schema".data =
      [{ number := "1.1".data, status := "DONE".data,
         description := "Configure database schema".data, level := 2,
         sectionNumber := "1".data, sectionTitle := [] }] ∧
    ∀ line : List Char, hasBracketedTokenB line = false →
      parseItemLine line = none := by
  constructor
  · decide
  · intro line hno
    cases hp : parseItemLine line with
    | none => rfl
    | some v =>
      exact absurd (parseItemLine_some_bracket hp) (by simp [hno])

/-- C9 witness: a line whose status word is not bracketed is ignored. -/
theorem c9_todo_parsing_witness :
    hasBracketedTokenB "- 2.3 DONE Configure backup".data = false ∧
    parseItemLine "- 2.3 DONE Configure backup".data = none :=
  ⟨by decide, c9_todo_parsing.2 "- 2.3 DONE Configure backup".data (by decide)⟩
